import Mathlib

/-!
Shallow embedding of the bluboi BLE control plane (src/main.go).

The Go program is a local control plane for one BLE radio: HTTP handlers
enqueue commands, a single event loop dispatches them to the shared
adapter state, and a broadcast loop fans log entries out to SSE
subscribers.  We embed the pure data transformations of that code:

* `Log`, `LogInfo`, `LogDeviceInfo`, `LogError`, `LogToSSE` mirror the
  log constructors and the SSE wire encoding (main.go lines 254-277);
* the device registry (a Go map from address string to `Device`) is
  modelled as an association list with unique addresses, with
  `SafeDevices.Exists`, `SafeDevices.Device` and `SafeDevices.Add`
  (main.go lines 105-137);
* `SafeAdapter.Connect` / `SafeAdapter.Disconnect` embed the locked
  critical sections (main.go lines 154-174 and 227-242); the fallible
  driver call is passed in as an `Except` value, its handle as a `Nat`;
* `scanCallback` / `scanFold` / `SafeAdapter.Scan` embed the discovery
  callback and the deadline-bound scan (main.go lines 176-214);
* `GetEventsHandler` embeds the /events stream-open sequence
  (main.go lines 322-348): purge both queues, register the subscriber,
  replay the registry;
* `BroadcastLog` / `broadcastSchedule` embed the broadcast loop
  (main.go lines 75-98 and 379-384); because each entry's broadcast is
  launched with `go`, the order in which the per-entry tasks acquire the
  client-registry mutex is a scheduler choice, modelled as an explicit
  schedule (a permutation of the entry indices).
-/

/-- A log entry: `Log` struct of main.go (level INFO, DEVICE or ERROR). -/
structure Log where
  Level : String
  Msg : String
deriving DecidableEq, Repr

/-- `LogInfo` (main.go 254-259): joins its arguments with a space. -/
def LogInfo (info : List String) : Log :=
  { Level := "INFO", Msg := String.intercalate " " info }

/-- `LogDeviceInfo` (main.go 261-266): joins its arguments with a semicolon. -/
def LogDeviceInfo (info : List String) : Log :=
  { Level := "DEVICE", Msg := String.intercalate ";" info }

/-- `LogError` (main.go 268-273): joins its arguments with a space. -/
def LogError (err : List String) : Log :=
  { Level := "ERROR", Msg := String.intercalate " " err }

/-- `LogToSSE` (main.go 275-277): renders a log entry as an SSE frame. -/
def LogToSSE (l : Log) : String :=
  "event: " ++ l.Level ++ "\ndata: \"" ++ l.Msg ++ "\"\n\n"

/-- A discovered device (`Device` struct, main.go 100-103); the
`*bluetooth.Address` is identified with its `String()` rendering, which is
the only way the program uses it. -/
structure Device where
  Name : String
  Address : String
deriving DecidableEq, Repr

/-- `SafeDevices.Exists` (main.go 124-131): membership of an address in the
registry map. -/
def SafeDevices.Exists (sd : List Device) (addr : String) : Bool :=
  sd.any (fun d => d.Address == addr)

/-- `SafeDevices.Device` (main.go 118-122), named `get` here because the
method shares its name with the `Device` type: map lookup; a missing key
yields Go's zero value `Device{}`. -/
def SafeDevices.get (sd : List Device) (addr : String) : Device :=
  (sd.find? (fun d => d.Address == addr)).getD { Name := "", Address := "" }

/-- `SafeDevices.Add` (main.go 133-137): Go map assignment keyed by the
device's address — it overwrites the entry when the key is present. -/
def SafeDevices.Add (sd : List Device) (device : Device) : List Device :=
  if SafeDevices.Exists sd device.Address then
    sd.map (fun d => if d.Address == device.Address then device else d)
  else
    sd ++ [device]

/-- The adapter singleton's mutable fields (`SafeAdapter`, main.go 140-145):
the owned radio handle (opaque, a `Nat` here) and the connected flag. -/
structure SafeAdapter where
  BTDevice : Option Nat
  Connected : Bool
deriving DecidableEq, Repr

/-- The state the adapter starts in: no handle, not connected
(main.go 245). -/
def initialAdapter : SafeAdapter := { BTDevice := none, Connected := false }

/-- `SafeAdapter.Connect` (main.go 154-174).  The driver call
`sa.Adapter.Connect(...)` is passed in as `drv`: `.ok h` models a returned
handle, `.error e` a failed call with message `e`.  Returns the new adapter
state and the log entries emitted, in order. -/
def SafeAdapter.Connect (drv : Except String Nat) (Devices : List Device)
    (sa : SafeAdapter) (address : String) : SafeAdapter × List Log :=
  if sa.Connected || sa.BTDevice != none then
    (sa, [LogError ["You're already connected."]])
  else if !(SafeDevices.Exists Devices address) then
    (sa, [LogError ["Could not find the device."]])
  else
    let device := SafeDevices.get Devices address
    match drv with
    | .error e => (sa, [LogError ["Could not connect to ", device.Name, e]])
    | .ok dvc =>
        ({ BTDevice := some dvc, Connected := true },
         [LogInfo ["Connected to", device.Name]])

/-- `SafeAdapter.Disconnect` (main.go 227-242).  The driver call
`sa.BTDevice.Disconnect()` is passed in as `drv`. -/
def SafeAdapter.Disconnect (drv : Except String Unit)
    (sa : SafeAdapter) : SafeAdapter × List Log :=
  if !sa.Connected || sa.BTDevice == none then
    (sa, [LogError ["Currently not connected to any device."]])
  else
    match drv with
    | .error e => (sa, [LogError ["Could not disconnect device -", e]])
    | .ok _ =>
        ({ BTDevice := none, Connected := false }, [LogInfo ["Disconnected."]])

/-- One advertisement seen during a scan (`bluetooth.ScanResult`): the
advertised local name and the address rendered as a string. -/
structure ScanResult where
  LocalName : String
  Address : String
deriving DecidableEq, Repr

/-- The discovery callback passed to `sa.Adapter.Scan` (main.go 183-195):
drop results with an empty local name, drop already-known addresses,
otherwise add the device to the registry and emit a DEVICE log entry.
Returns the updated registry and the emitted log entries. -/
def scanCallback (devs : List Device) (result : ScanResult) :
    List Device × List Log :=
  if result.LocalName == "" then
    (devs, [])
  else if SafeDevices.Exists devs result.Address then
    (devs, [])
  else
    (SafeDevices.Add devs { Name := result.LocalName, Address := result.Address },
     [LogDeviceInfo [result.Address, result.LocalName]])

/-- The discovery callback applied to each advertisement seen during the
scan window, in order. -/
def scanFold (devs : List Device) (results : List ScanResult) :
    List Device × List Log :=
  match results with
  | [] => (devs, [])
  | r :: rs =>
      let (devs2, ls) := scanCallback devs r
      let (devs3, ls2) := scanFold devs2 rs
      (devs3, ls ++ ls2)

/-- `SafeAdapter.Scan` (main.go 176-214): log INFO "Scanning...", run the
discovery callback on each advertisement inside the deadline, then at the
deadline call `StopScan`; when the stop succeeds log INFO
"Stopped Scanning.", when it fails only a process-local `log.Printf` runs
and nothing reaches the log stream.  `stopOk` models the result of the
`StopScan` driver call. -/
def SafeAdapter.Scan (stopOk : Bool) (devs : List Device)
    (results : List ScanResult) : List Device × List Log :=
  let (devs2, dlogs) := scanFold devs results
  (devs2,
   [LogInfo ["Scanning..."]] ++ dlogs ++
     (if stopOk then [LogInfo ["Stopped Scanning."]] else []))

/-- A queued operator command (`Event` struct, main.go 18-21); the Go field
`Type` is spelled `Typ` because `Type` is reserved in Lean. -/
structure Event where
  Typ : String
  Data : String
deriving DecidableEq, Repr

/-- The process-wide mutable state touched by `GetEventsHandler`: the two
bounded channels, the client registry (subscriber ids), and the device
registry (main.go 244-252). -/
structure SystemState where
  LogsQ : List Log
  EventQ : List Event
  Clients : List Nat
  Devices : List Device
deriving DecidableEq, Repr

/-- The `for len(ch) > 0 { <-ch }` drain loops of `GetEventsHandler`
(main.go 327-332): discard every pending entry. -/
def drainQueue {α : Type} : List α → List α
  | [] => []
  | _ :: rest => drainQueue rest

/-- The registry replay of `GetEventsHandler` (main.go 337-339): for each
device currently in the registry, enqueue a DEVICE log entry. -/
def replayDevices (q : List Log) (devs : List Device) : List Log :=
  match devs with
  | [] => q
  | d :: ds => replayDevices (q ++ [LogDeviceInfo [d.Address, d.Name]]) ds

/-- `GetEventsHandler` stream-open sequence (main.go 322-348): drain the
log channel, drain the command channel, register the new subscriber, then
replay the device registry as DEVICE log entries. -/
def GetEventsHandler (id : Nat) (s : SystemState) : SystemState :=
  let logs1 := drainQueue s.LogsQ
  let events1 := drainQueue s.EventQ
  let clients1 := s.Clients ++ [id]
  let logs2 := replayDevices logs1 s.Devices
  { LogsQ := logs2, EventQ := events1, Clients := clients1,
    Devices := s.Devices }

/-- One subscriber's delivery record: its id and the frames written to its
socket so far, in order. -/
structure Subscriber where
  id : Nat
  received : List String
deriving DecidableEq, Repr

/-- `SafeClients.BroadcastLog` (main.go 75-98) restricted to subscribers
whose writes succeed and whose contexts are live: under the registry mutex,
write the frame to every current subscriber in registry order. -/
def BroadcastLog (frame : String) (clients : List Subscriber) :
    List Subscriber :=
  clients.map (fun c => { id := c.id, received := c.received ++ [frame] })

/-- A sequence of `BroadcastLog` calls applied in the order the per-entry
tasks acquired the mutex. -/
def runBroadcasts (frames : List String) (clients : List Subscriber) :
    List Subscriber :=
  match frames with
  | [] => clients
  | f :: fs => runBroadcasts fs (BroadcastLog f clients)

/-- `BroadcastLogs` (main.go 379-384) reads log entries from the channel in
enqueue order but hands each one to a detached `go Clients.BroadcastLog`
task; the order in which those tasks acquire the client-registry mutex is a
scheduler choice.  A schedule lists the entry indices in mutex-acquisition
order; the result is the frame sequence every subscriber present throughout
observes. -/
def broadcastSchedule (logs : List Log) (sched : List Nat) : List String :=
  sched.filterMap (fun i => (logs.get? i).map LogToSSE)

/-- One CONNECT command as the event loop dispatches it (main.go 293-296):
the target address, paired with the outcome the driver would give to this
attempt. -/
structure ConnectCmd where
  address : String
  drv : Except String Nat
deriving Repr

/-- Process a sequence of CONNECT commands against the adapter state,
returning the final state and the concatenated log entries. -/
def runConnects (devs : List Device) (sa : SafeAdapter) :
    List ConnectCmd → SafeAdapter × List Log
  | [] => (sa, [])
  | c :: cs =>
      let (sa2, ls) := SafeAdapter.Connect c.drv devs sa c.address
      let (sa3, ls2) := runConnects devs sa2 cs
      (sa3, ls ++ ls2)

/-- The number of commands in the sequence whose processing takes the
adapter from not-connected to connected (a successful CONNECT). -/
def connectSuccessCount (devs : List Device) (sa : SafeAdapter) :
    List ConnectCmd → Nat
  | [] => 0
  | c :: cs =>
      let sa2 := (SafeAdapter.Connect c.drv devs sa c.address).1
      (if !sa.Connected && sa2.Connected then 1 else 0) +
        connectSuccessCount devs sa2 cs

/-! ### Helper lemmas -/

/-- A connected adapter rejects any further CONNECT unchanged, with the
already-connected error. -/
theorem connect_noop_of_connected (drv : Except String Nat)
    (devs : List Device) (sa : SafeAdapter) (addr : String)
    (h : sa.Connected = true) :
    SafeAdapter.Connect drv devs sa addr =
      (sa, [LogError ["You're already connected."]]) := by
  simp [SafeAdapter.Connect, h]

/-- No sequence of CONNECT commands ever contains two successful ones. -/
theorem connectSuccessCount_le_one (devs : List Device) :
    ∀ (cmds : List ConnectCmd) (sa : SafeAdapter),
      connectSuccessCount devs sa cmds ≤ 1 := by
  have hzero : ∀ (cmds : List ConnectCmd) (sa : SafeAdapter),
      sa.Connected = true → connectSuccessCount devs sa cmds = 0 := by
    intro cmds
    induction cmds with
    | nil => intro sa _; rfl
    | cons c cs ih =>
        intro sa h
        rw [connectSuccessCount, connect_noop_of_connected c.drv devs sa c.address h]
        simp [h, ih sa h]
  intro cmds
  induction cmds with
  | nil => intro sa; simp [connectSuccessCount]
  | cons c cs ih =>
      intro sa
      rw [connectSuccessCount]
      by_cases h2 : ((SafeAdapter.Connect c.drv devs sa c.address).1).Connected = true
      · by_cases h1 : sa.Connected = true
        · simp [h1, hzero cs _ h2]
        · simp only [Bool.not_eq_true] at h1
          simp [h1, h2, hzero cs _ h2]
      · simp only [Bool.not_eq_true] at h2
        simp [h2]
        exact ih _


/-! ### Claims -/

/-- C1: For any sequence of CONNECT commands processed against the adapter
state starting disconnected, at most one takes the adapter to
connected=true with a live handle; once connected, every further CONNECT
is a no-op that emits exactly one ERROR entry, so the adapter never holds
two live connected handles. -/
theorem connect_at_most_one_success :
    (∀ (devs : List Device) (cmds : List ConnectCmd),
      connectSuccessCount devs initialAdapter cmds ≤ 1) ∧
    (∀ (drv : Except String Nat) (devs : List Device) (sa : SafeAdapter)
        (addr : String), sa.Connected = true →
      SafeAdapter.Connect drv devs sa addr =
        (sa, [LogError ["You're already connected."]])) := by
  constructor
  · intro devs cmds
    exact connectSuccessCount_le_one devs cmds initialAdapter
  · intro drv devs sa addr h
    exact connect_noop_of_connected drv devs sa addr h

/-- Witness for C1 at concrete inputs: two CONNECTs whose driver calls
would both succeed still yield at most one success, and a CONNECT against
a connected adapter is a no-op with exactly one ERROR entry. -/
theorem connect_at_most_one_success_witness :
    connectSuccessCount
        [{ Name := "N", Address := "X" }] initialAdapter
        [{ address := "X", drv := .ok 7 }, { address := "X", drv := .ok 8 }]
      ≤ 1 ∧
    SafeAdapter.Connect (.ok 7) [{ Name := "N", Address := "X" }]
        { BTDevice := some 5, Connected := true } "X" =
      ({ BTDevice := some 5, Connected := true },
       [LogError ["You're already connected."]]) :=
  ⟨connect_at_most_one_success.1 [{ Name := "N", Address := "X" }]
      [{ address := "X", drv := .ok 7 }, { address := "X", drv := .ok 8 }],
   connect_at_most_one_success.2 (.ok 7) [{ Name := "N", Address := "X" }]
      { BTDevice := some 5, Connected := true } "X" rfl⟩

/-- C5: CONNECT(address) is a no-op with one ERROR entry when already
connected or a handle exists; a no-op with one ERROR entry when the
address is unknown to the registry; otherwise, on driver success it sets
connected=true together with the handle and logs INFO, and on driver
failure it logs ERROR and leaves the state unchanged. -/
theorem connect_spec (drv : Except String Nat) (devs : List Device)
    (sa : SafeAdapter) (addr : String) :
    ((sa.Connected = true ∨ sa.BTDevice ≠ none) →
      SafeAdapter.Connect drv devs sa addr =
        (sa, [LogError ["You're already connected."]])) ∧
    (sa.Connected = false → sa.BTDevice = none →
      SafeDevices.Exists devs addr = false →
      SafeAdapter.Connect drv devs sa addr =
        (sa, [LogError ["Could not find the device."]])) ∧
    (∀ e, sa.Connected = false → sa.BTDevice = none →
      SafeDevices.Exists devs addr = true → drv = .error e →
      SafeAdapter.Connect drv devs sa addr =
        (sa, [LogError ["Could not connect to ",
                        (SafeDevices.get devs addr).Name, e]])) ∧
    (∀ h, sa.Connected = false → sa.BTDevice = none →
      SafeDevices.Exists devs addr = true → drv = .ok h →
      SafeAdapter.Connect drv devs sa addr =
        ({ BTDevice := some h, Connected := true },
         [LogInfo ["Connected to", (SafeDevices.get devs addr).Name]])) := by
  refine ⟨?_, ?_, ?_, ?_⟩
  · rintro (h | h) <;> simp [SafeAdapter.Connect, h]
  · intro h1 h2 h3
    simp [SafeAdapter.Connect, h1, h2, h3]
  · intro e h1 h2 h3 h4
    simp [SafeAdapter.Connect, h1, h2, h3, h4]
  · intro h h1 h2 h3 h4
    simp [SafeAdapter.Connect, h1, h2, h3, h4]

/-- Witness for C5 at concrete inputs, one per branch. -/
theorem connect_spec_witness :
    (SafeAdapter.Connect (.ok 7) [] { BTDevice := some 5, Connected := true }
        "X" = ({ BTDevice := some 5, Connected := true },
               [LogError ["You're already connected."]])) ∧
    (SafeAdapter.Connect (.ok 7) [] initialAdapter "X" =
      (initialAdapter, [LogError ["Could not find the device."]])) ∧
    (SafeAdapter.Connect (.error "boom") [{ Name := "N", Address := "X" }]
        initialAdapter "X" =
      (initialAdapter,
       [LogError ["Could not connect to ",
                  (SafeDevices.get [{ Name := "N", Address := "X" }] "X").Name,
                  "boom"]])) ∧
    (SafeAdapter.Connect (.ok 7) [{ Name := "N", Address := "X" }]
        initialAdapter "X" =
      ({ BTDevice := some 7, Connected := true },
       [LogInfo ["Connected to",
                 (SafeDevices.get [{ Name := "N", Address := "X" }] "X").Name]])) :=
  ⟨(connect_spec (.ok 7) [] { BTDevice := some 5, Connected := true } "X").1
      (Or.inl rfl),
   (connect_spec (.ok 7) [] initialAdapter "X").2.1 rfl rfl (by decide),
   (connect_spec (.error "boom") [{ Name := "N", Address := "X" }]
      initialAdapter "X").2.2.1 "boom" rfl rfl (by decide) rfl,
   (connect_spec (.ok 7) [{ Name := "N", Address := "X" }]
      initialAdapter "X").2.2.2 7 rfl rfl (by decide) rfl⟩

/-- C4: DISCONNECT while not connected is a no-op emitting exactly one
ERROR entry; a successful disconnect resets the adapter to the
disconnected value (connected=false, handle nil) and logs INFO; a failed
disconnect call leaves the stale handle and connected=true in place and
logs an ERROR. -/
theorem disconnect_spec (drv : Except String Unit) (sa : SafeAdapter) :
    ((sa.Connected = false ∨ sa.BTDevice = none) →
      SafeAdapter.Disconnect drv sa =
        (sa, [LogError ["Currently not connected to any device."]])) ∧
    (sa.Connected = true → sa.BTDevice ≠ none → drv = .ok () →
      SafeAdapter.Disconnect drv sa =
        (initialAdapter, [LogInfo ["Disconnected."]])) ∧
    (∀ e, sa.Connected = true → sa.BTDevice ≠ none → drv = .error e →
      SafeAdapter.Disconnect drv sa =
        (sa, [LogError ["Could not disconnect device -", e]])) := by
  refine ⟨?_, ?_, ?_⟩
  · rintro (h | h) <;> simp [SafeAdapter.Disconnect, h]
  · intro h1 h2 h3
    simp [SafeAdapter.Disconnect, h1, h2, h3, initialAdapter]
  · intro e h1 h2 h3
    simp [SafeAdapter.Disconnect, h1, h2, h3]

/-- Witness for C4 at concrete inputs, one per branch. -/
theorem disconnect_spec_witness :
    (SafeAdapter.Disconnect (.ok ()) initialAdapter =
      (initialAdapter,
       [LogError ["Currently not connected to any device."]])) ∧
    (SafeAdapter.Disconnect (.ok ()) { BTDevice := some 5, Connected := true } =
      (initialAdapter, [LogInfo ["Disconnected."]])) ∧
    (SafeAdapter.Disconnect (.error "radio gone")
        { BTDevice := some 5, Connected := true } =
      ({ BTDevice := some 5, Connected := true },
       [LogError ["Could not disconnect device -", "radio gone"]])) :=
  ⟨(disconnect_spec (.ok ()) initialAdapter).1 (Or.inl rfl),
   (disconnect_spec (.ok ()) { BTDevice := some 5, Connected := true }).2.1
      rfl (by decide) rfl,
   (disconnect_spec (.error "radio gone")
      { BTDevice := some 5, Connected := true }).2.2 "radio gone"
      rfl (by decide) rfl⟩

/-- C6: CONNECT against an empty Device Registry, from a disconnected
adapter, yields exactly one ERROR entry carrying the device-not-found
message and leaves the adapter state unchanged. -/
theorem connect_empty_registry (drv : Except String Nat) (addr : String)
    (sa : SafeAdapter) (h1 : sa.Connected = false) (h2 : sa.BTDevice = none) :
    SafeAdapter.Connect drv [] sa addr =
      (sa, [{ Level := "ERROR", Msg := "Could not find the device." }]) := by
  have hmsg : LogError ["Could not find the device."] =
      { Level := "ERROR", Msg := "Could not find the device." } := rfl
  simp [SafeAdapter.Connect, h1, h2, SafeDevices.Exists, hmsg]

/-- Witness for C6: CONNECT("AA:BB") against the empty registry from the
initial adapter state. -/
theorem connect_empty_registry_witness :
    SafeAdapter.Connect (.ok 7) [] initialAdapter "AA:BB" =
      (initialAdapter,
       [{ Level := "ERROR", Msg := "Could not find the device." }]) :=
  connect_empty_registry (.ok 7) "AA:BB" initialAdapter rfl rfl

/-- Replacing the matching entry makes `find?` return the new device once
the address is present. -/
theorem find_map_replace :
    ∀ (devs : List Device) (device : Device),
      SafeDevices.Exists devs device.Address = true →
      List.find? (fun d => d.Address == device.Address)
          (devs.map (fun d => if d.Address == device.Address then device else d))
        = some device := by
  intro devs device
  induction devs with
  | nil => intro h; simp [SafeDevices.Exists] at h
  | cons d ds ih =>
      intro h
      by_cases hd : (d.Address == device.Address) = true
      · have hd2 : d.Address = device.Address := by simpa using hd
        simp [hd2]
      · have hd2 : ¬ d.Address = device.Address := by simpa using hd
        have hds : SafeDevices.Exists ds device.Address = true := by
          simp only [SafeDevices.Exists, List.any_cons, Bool.or_eq_true] at h
          rcases h with h | h
          · exact absurd h hd
          · simpa [SafeDevices.Exists] using h
        simp only [List.map_cons, if_neg hd]
        rw [List.find?_cons_of_neg]
        · exact ih hds
        · simp [hd2]

/-- `Add` on an already-present address stores the new device: Go map
assignment is last-write-wins. -/
theorem get_add_of_exists (devs : List Device) (device : Device)
    (h : SafeDevices.Exists devs device.Address = true) :
    SafeDevices.get (SafeDevices.Add devs device) device.Address = device := by
  unfold SafeDevices.Add
  rw [if_pos h]
  unfold SafeDevices.get
  rw [find_map_replace devs device h]
  rfl

/-- C3 counterexample: `SafeDevices.Add` is a Go map assignment, so
re-adding address "X" with name "B" after storing name "A" changes the
stored name to "B" — the claim that a later `add` never changes the stored
name fails. -/
theorem add_changes_name_counterexample :
    (SafeDevices.get
        (SafeDevices.Add (SafeDevices.Add [] { Name := "A", Address := "X" })
          { Name := "B", Address := "X" }) "X").Name = "B" ∧
    ¬ ((SafeDevices.get
        (SafeDevices.Add (SafeDevices.Add [] { Name := "A", Address := "X" })
          { Name := "B", Address := "X" }) "X").Name = "A") := by
  decide

/-- C3 (amended): the scan discovery path is first-write-wins — a later
discovery of an already-stored address is dropped before `Add` is ever
called, leaving the registry and the log stream untouched; the raw
registry `Add` itself, however, overwrites: with the address already
present it replaces the stored device with the new one
(last-write-wins). -/
theorem registry_first_write_wins (devs : List Device) (r : ScanResult)
    (device : Device)
    (hr : SafeDevices.Exists devs r.Address = true)
    (hd : SafeDevices.Exists devs device.Address = true) :
    scanCallback devs r = (devs, []) ∧
    SafeDevices.get (SafeDevices.Add devs device) device.Address = device := by
  constructor
  · by_cases hn : (r.LocalName == "") = true
    · simp [scanCallback, hn]
    · simp [scanCallback, hn, hr]
  · exact get_add_of_exists devs device hd

/-- Witness for the amended C3: a second discovery of address "X" is
dropped, while a raw `Add` of address "X" with a new name replaces the
stored device. -/
theorem registry_first_write_wins_witness :
    scanCallback [{ Name := "A", Address := "X" }]
        { LocalName := "B", Address := "X" } =
      ([{ Name := "A", Address := "X" }], []) ∧
    SafeDevices.get
        (SafeDevices.Add [{ Name := "A", Address := "X" }]
          { Name := "B", Address := "X" }) "X" =
      { Name := "B", Address := "X" } :=
  registry_first_write_wins [{ Name := "A", Address := "X" }]
    { LocalName := "B", Address := "X" } { Name := "B", Address := "X" }
    (by decide) (by decide)

/-- The drain loop discards every pending entry. -/
theorem drainQueue_eq_nil {α : Type} (q : List α) : drainQueue q = [] := by
  induction q with
  | nil => rfl
  | cons x xs ih => rw [drainQueue]; exact ih

/-- Registry replay appends one DEVICE entry per stored device, in
traversal order. -/
theorem replayDevices_eq (devs : List Device) :
    ∀ q : List Log,
      replayDevices q devs =
        q ++ devs.map (fun d => LogDeviceInfo [d.Address, d.Name]) := by
  induction devs with
  | nil => intro q; simp [replayDevices]
  | cons d ds ih => intro q; rw [replayDevices, ih]; simp

/-- C7: opening a new /events stream drains both the Log Stream and the
Command Queue process-wide (discarding every pending entry), registers the
new subscriber, and replays every device currently in the registry as a
DEVICE log entry, leaving the registry itself untouched. -/
theorem get_events_purge_register_replay (id : Nat) (s : SystemState) :
    (GetEventsHandler id s).EventQ = [] ∧
    (GetEventsHandler id s).LogsQ =
      s.Devices.map (fun d => LogDeviceInfo [d.Address, d.Name]) ∧
    (GetEventsHandler id s).Clients = s.Clients ++ [id] ∧
    (GetEventsHandler id s).Devices = s.Devices := by
  refine ⟨?_, ?_, rfl, rfl⟩
  · simp [GetEventsHandler, drainQueue_eq_nil]
  · simp [GetEventsHandler, drainQueue_eq_nil, replayDevices_eq]

/-- C8: the SSE wire encoding of a log entry is exactly
"event: " + level + newline + "data: " + quote + message + quote + two
newlines; the given DEVICE entry renders to the exact expected frame, and
every DEVICE entry produced by a discovery carries the payload
address;name. -/
theorem sse_frame_format :
    (LogToSSE { Level := "DEVICE", Msg := "AA:BB:CC:DD:EE:FF;MyDevice" } =
      "event: DEVICE\ndata: \"AA:BB:CC:DD:EE:FF;MyDevice\"\n\n") ∧
    (∀ l : Log, LogToSSE l =
      "event: " ++ l.Level ++ "\ndata: \"" ++ l.Msg ++ "\"\n\n") ∧
    (∀ (devs : List Device) (r : ScanResult),
      (r.LocalName == "") = false →
      SafeDevices.Exists devs r.Address = false →
      (scanCallback devs r).2 =
        [{ Level := "DEVICE", Msg := r.Address ++ ";" ++ r.LocalName }]) := by
  refine ⟨by decide, fun l => rfl, ?_⟩
  intro devs r h1 h2
  simp [scanCallback, h1, h2]
  rfl

/-- Witness for C8's discovery conjunct at a concrete fresh discovery. -/
theorem sse_frame_format_witness :
    (scanCallback [] { LocalName := "MyDevice",
                       Address := "AA:BB:CC:DD:EE:FF" }).2 =
      [{ Level := "DEVICE", Msg := "AA:BB:CC:DD:EE:FF" ++ ";" ++ "MyDevice" }] :=
  sse_frame_format.2.2 [] { LocalName := "MyDevice",
                            Address := "AA:BB:CC:DD:EE:FF" } rfl rfl

/-- C9: a scan that sees no advertisement and whose deadline stop call
succeeds emits exactly INFO "Scanning..." then INFO "Stopped Scanning.",
with no DEVICE entry in between; during a scan, a discovery of a known
address is deduplicated (registry and log stream untouched), and a fresh
discovery with a non-empty name is added to the registry and logged at
DEVICE level. -/
theorem scan_spec :
    (∀ devs : List Device, SafeAdapter.Scan true devs [] =
      (devs, [{ Level := "INFO", Msg := "Scanning..." },
              { Level := "INFO", Msg := "Stopped Scanning." }])) ∧
    (∀ (devs : List Device) (r : ScanResult),
      SafeDevices.Exists devs r.Address = true →
      scanCallback devs r = (devs, [])) ∧
    (∀ (devs : List Device) (r : ScanResult),
      (r.LocalName == "") = false →
      SafeDevices.Exists devs r.Address = false →
      scanCallback devs r =
        (SafeDevices.Add devs { Name := r.LocalName, Address := r.Address },
         [{ Level := "DEVICE", Msg := r.Address ++ ";" ++ r.LocalName }])) := by
  refine ⟨fun devs => rfl, ?_, ?_⟩
  · intro devs r h
    by_cases hn : (r.LocalName == "") = true
    · simp [scanCallback, hn]
    · simp [scanCallback, hn, h]
  · intro devs r h1 h2
    simp [scanCallback, h1, h2]
    rfl

/-- Witness for C9 at concrete inputs: an empty scan with a successful
stop, a duplicate discovery, and a fresh discovery. -/
theorem scan_spec_witness :
    (SafeAdapter.Scan true [{ Name := "N", Address := "X" }] [] =
      ([{ Name := "N", Address := "X" }],
       [{ Level := "INFO", Msg := "Scanning..." },
        { Level := "INFO", Msg := "Stopped Scanning." }])) ∧
    (scanCallback [{ Name := "N", Address := "X" }]
        { LocalName := "M", Address := "X" } =
      ([{ Name := "N", Address := "X" }], [])) ∧
    (scanCallback [] { LocalName := "N", Address := "X" } =
      (SafeDevices.Add [] { Name := "N", Address := "X" },
       [{ Level := "DEVICE", Msg := "X" ++ ";" ++ "N" }])) :=
  ⟨scan_spec.1 [{ Name := "N", Address := "X" }],
   scan_spec.2.1 [{ Name := "N", Address := "X" }]
      { LocalName := "M", Address := "X" } (by decide),
   scan_spec.2.2 [] { LocalName := "N", Address := "X" } rfl rfl⟩

/-- Every member of the registry after an `Add` is either an old member or
the added device. -/
theorem mem_of_mem_add (devs : List Device) (device d : Device)
    (h : d ∈ SafeDevices.Add devs device) : d ∈ devs ∨ d = device := by
  unfold SafeDevices.Add at h
  by_cases he : SafeDevices.Exists devs device.Address = true
  · rw [if_pos he] at h
    rcases List.mem_map.1 h with ⟨a, ha, hd⟩
    by_cases hm : a.Address = device.Address
    · right; rw [← hd]; simp [hm]
    · left; rw [← hd]; simpa [hm] using ha
  · rw [if_neg he] at h
    rcases List.mem_append.1 h with h | h
    · exact Or.inl h
    · exact Or.inr (List.mem_singleton.1 h)

/-- One discovery-callback step preserves the all-names-non-empty
invariant of the registry. -/
theorem scanCallback_preserves_names (devs : List Device) (r : ScanResult)
    (h : ∀ d ∈ devs, d.Name ≠ "") :
    ∀ d ∈ (scanCallback devs r).1, d.Name ≠ "" := by
  intro d hd
  by_cases hn : (r.LocalName == "") = true
  · rw [scanCallback, if_pos hn] at hd
    exact h d hd
  · by_cases he : SafeDevices.Exists devs r.Address = true
    · rw [scanCallback, if_neg hn, if_pos he] at hd
      exact h d hd
    · rw [scanCallback, if_neg hn, if_neg he] at hd
      rcases mem_of_mem_add devs _ d hd with hm | hm
      · exact h d hm
      · rw [hm]
        simpa using hn

/-- C10: a scan discovery whose advertised local name is empty is silently
dropped — nothing is added to the registry and no log entry is emitted —
so a registry whose devices all have non-empty names keeps that invariant
across any sequence of discoveries. -/
theorem scan_drops_empty_names :
    (∀ (devs : List Device) (r : ScanResult), r.LocalName = "" →
      scanCallback devs r = (devs, [])) ∧
    (∀ (devs : List Device) (rs : List ScanResult),
      (∀ d ∈ devs, d.Name ≠ "") →
      ∀ d ∈ (scanFold devs rs).1, d.Name ≠ "") := by
  constructor
  · intro devs r h
    simp [scanCallback, h]
  · intro devs rs
    induction rs generalizing devs with
    | nil => intro h; simpa [scanFold] using h
    | cons r rs ih =>
        intro h
        rw [scanFold]
        exact ih _ (scanCallback_preserves_names devs r h)

/-- Witness for C10: an empty-name discovery is dropped, and after a scan
seeing an empty-name and a named advertisement, a stored device's name is
non-empty. -/
theorem scan_drops_empty_names_witness :
    scanCallback [{ Name := "N", Address := "X" }]
        { LocalName := "", Address := "Y" } =
      ([{ Name := "N", Address := "X" }], []) ∧
    ({ Name := "M", Address := "Z" } : Device).Name ≠ "" :=
  ⟨scan_drops_empty_names.1 [{ Name := "N", Address := "X" }]
      { LocalName := "", Address := "Y" } rfl,
   scan_drops_empty_names.2 [{ Name := "N", Address := "X" }]
      [{ LocalName := "", Address := "Y" }, { LocalName := "M", Address := "Z" }]
      (by decide) { Name := "M", Address := "Z" } (by decide)⟩

/-- A run of `BroadcastLog` calls appends the delivered frame sequence to
every subscriber present throughout, in the same order for all of them. -/
theorem runBroadcasts_eq :
    ∀ (frames : List String) (clients : List Subscriber),
      runBroadcasts frames clients =
        clients.map (fun c =>
          { id := c.id, received := c.received ++ frames }) := by
  intro frames
  induction frames with
  | nil => intro clients; simp [runBroadcasts]
  | cons f fs ih =>
      intro clients
      rw [runBroadcasts, ih, BroadcastLog, List.map_map]
      simp

/-- Draining the log channel in enqueue order (the identity schedule)
delivers exactly the rendered frames in enqueue order. -/
theorem broadcastSchedule_range :
    ∀ logs : List Log,
      broadcastSchedule logs (List.range logs.length) =
        logs.map LogToSSE := by
  intro logs
  induction logs with
  | nil => rfl
  | cons l ls ih =>
      rw [broadcastSchedule] at ih ⊢
      have hc : ((fun i => Option.map LogToSSE ((l :: ls).get? i)) ∘ Nat.succ)
          = (fun i => Option.map LogToSSE (ls.get? i)) := by
        funext i; rfl
      rw [List.length_cons, List.range_succ_eq_map, List.filterMap_cons,
          List.filterMap_map, hc, ih]
      rfl

/-- C2 counterexample: with the two entries INFO "one" then INFO "two"
pending and the schedule that lets the second entry's detached broadcast
task acquire the client-registry mutex first, subscribers receive the
second frame before the first — delivery in enqueue order for every valid
schedule is false. -/
theorem broadcast_reorder_counterexample :
    ¬ (∀ (logs : List Log) (sched : List Nat),
        List.Perm sched (List.range logs.length) →
        broadcastSchedule logs sched = logs.map LogToSSE) := by
  intro hcl
  have h2 := hcl [{ Level := "INFO", Msg := "one" },
                  { Level := "INFO", Msg := "two" }] [1, 0] (by decide)
  revert h2
  decide

/-- C2 (amended): every subscriber present for the whole delivery observes
the same total frame order — each `BroadcastLog` call appends one frame to
every registered subscriber under the registry mutex — and that order is a
permutation of the enqueue order; but because `BroadcastLogs` hands each
entry to a detached task, the delivered order is the tasks'
mutex-acquisition order, so two entries may arrive swapped relative to
enqueue order. -/
theorem broadcast_total_order_per_schedule (logs : List Log)
    (sched : List Nat) (clients : List Subscriber)
    (h : List.Perm sched (List.range logs.length)) :
    runBroadcasts (broadcastSchedule logs sched) clients =
      clients.map (fun c =>
        { id := c.id,
          received := c.received ++ broadcastSchedule logs sched }) ∧
    List.Perm (broadcastSchedule logs sched) (logs.map LogToSSE) := by
  constructor
  · exact runBroadcasts_eq (broadcastSchedule logs sched) clients
  · have hp := List.Perm.filterMap (fun i => (logs.get? i).map LogToSSE) h
    have hr := broadcastSchedule_range logs
    rw [broadcastSchedule] at hr
    rw [broadcastSchedule, ← hr]
    exact hp

/-- Witness for the amended C2 at a concrete two-entry backlog, the
swapped schedule, and two subscribers. -/
theorem broadcast_total_order_witness :
    runBroadcasts
        (broadcastSchedule
          [{ Level := "INFO", Msg := "one" }, { Level := "INFO", Msg := "two" }]
          [1, 0])
        [{ id := 1, received := [] }, { id := 2, received := [] }] =
      ([{ id := 1, received := [] },
        { id := 2, received := [] }] : List Subscriber).map (fun c =>
        { id := c.id,
          received := c.received ++
            broadcastSchedule
              [{ Level := "INFO", Msg := "one" },
               { Level := "INFO", Msg := "two" }] [1, 0] }) ∧
    List.Perm
      (broadcastSchedule
        [{ Level := "INFO", Msg := "one" }, { Level := "INFO", Msg := "two" }]
        [1, 0])
      ([{ Level := "INFO", Msg := "one" },
        { Level := "INFO", Msg := "two" }].map LogToSSE) :=
  broadcast_total_order_per_schedule
    [{ Level := "INFO", Msg := "one" }, { Level := "INFO", Msg := "two" }]
    [1, 0] [{ id := 1, received := [] }, { id := 2, received := [] }]
    (by decide)
